import Mathlib

/-!
Verification development for the OCI DocGen frontend orchestration core
(src/frontend/js/app.js).  The definitions below are a shallow embedding of
the state variables and handlers of that file: pure functions become Lean
functions, the mutable module-level variables become fields of an explicit
state record, and each event handler or network-callback becomes a state
transition function.  JavaScript numbers that only ever hold exact small
rationals (progress percentages) are modelled as rationals; interval handles
returned by setInterval are modelled as freshly numbered identifiers
collected in a finite set of currently running intervals.
-/

namespace OciDocgen

/-! ## Option tree nodes and the search filter

The searchable dropdown built by createCustomSelect renders each option as a
list item carrying its display text and, for hierarchical lists, a
data-level attribute.  The model keeps exactly the data the search handler
reads back from the DOM: the text and the depth. -/

/-- One entry of a flattened, depth-annotated option list, as rendered by
createCustomSelect: the text content of the list item and its data-level. -/
structure OptionNode where
  name : String
  level : Nat
deriving DecidableEq, Repr

/-- Uppercasing as used by the handler (JavaScript toUpperCase), character by
character over the string data. -/
def strToUpper (s : String) : String := ⟨s.data.map Char.toUpper⟩

/-- Substring containment, the semantics of JavaScript indexOf(pat) > -1:
pat occurs contiguously somewhere in hay. -/
def strContains (hay pat : String) : Bool :=
  (List.range (hay.data.length + 1)).any fun i => pat.data.isPrefixOf (hay.data.drop i)

/-- Indexing into the flattened option list; out-of-range reads give a dummy
node (never reached by the handler, which only walks real indices). -/
def nodeAt (nodes : List OptionNode) (i : Nat) : OptionNode :=
  nodes.getD i ⟨"", 0⟩

/-- The literal match test of the search handler:
(item.textContent).toUpperCase().indexOf(filter) > -1, where filter is the
already-uppercased query. -/
def nodeMatches (filter : String) (n : OptionNode) : Bool :=
  strContains (strToUpper n.name) filter

/-- Case-insensitive substring match of a raw query against a display name;
definitionally equal to nodeMatches applied to the uppercased query. -/
def caseInsensitiveMatch (q : String) (n : OptionNode) : Bool :=
  strContains (strToUpper n.name) (strToUpper q)

/-- The backward ancestor walk of the search handler, translated from:
for (i = currentIndex - 1; i >= 0; i--) with parentLevel < currentLevel
adding the parent, updating currentLevel, and breaking at level 0.
The first argument is the exclusive upper index (the walk scans i-1 down to
0), the second the current target level. -/
def collectAncestors (nodes : List OptionNode) : Nat → Nat → List Nat
  | 0, _ => []
  | j + 1, currentLevel =>
    let p := nodeAt nodes j
    if p.level < currentLevel then
      if p.level = 0 then [j]
      else j :: collectAncestors nodes j p.level
    else collectAncestors nodes j currentLevel

/-- Ancestors contributed by one matched item: the handler returns early when
the level is 0 (or missing) and otherwise performs the backward walk. -/
def ancestorsOf (nodes : List OptionNode) (i : Nat) : List Nat :=
  if (nodeAt nodes i).level = 0 then [] else collectAncestors nodes i (nodeAt nodes i).level

/-- Indices of items whose text matches the uppercased query, in list order
(the first forEach of the handler). -/
def matchIndices (filter : String) (nodes : List OptionNode) : List Nat :=
  (List.range nodes.length).filter fun i => nodeMatches filter (nodeAt nodes i)

/-- The itemsToShow set built by the handler: all literal matches together
with the ancestors collected for each match.  The handler grows a JavaScript
Set while iterating it (Set.forEach visits elements added during iteration);
the lemma itemsToShow_closed below shows that processing the added ancestors
contributes nothing new, so one round of ancestor collection is the fixpoint. -/
def itemsToShow (filter : String) (nodes : List OptionNode) : List Nat :=
  matchIndices filter nodes ++
    (matchIndices filter nodes).flatMap (ancestorsOf nodes)

/-- The visibility overlay of the search handler: with an empty filter every
item is displayed, otherwise an item is displayed iff it is in itemsToShow.
Translated from: if (!filter) show all; item.style.display =
itemsToShow.has(item) ? "" : "none". -/
def applyFilter (q : String) (nodes : List OptionNode) (k : Nat) : Bool :=
  if strToUpper q = "" then true else decide (k ∈ itemsToShow (strToUpper q) nodes)

/-- The option list a user can still see after filtering: the original list
restricted to visible indices, in the original order. -/
def visibleNodes (q : String) (nodes : List OptionNode) : List OptionNode :=
  ((List.range nodes.length).filter fun k => applyFilter q nodes k).map (nodeAt nodes)

/-- The nearest earlier node of strictly smaller depth, in the words of the
specification: scanning backward from index i (exclusive) for the first index
whose level is below d. -/
def nearestSmaller (nodes : List OptionNode) : Nat → Nat → Option Nat
  | 0, _ => none
  | j + 1, d => if (nodeAt nodes j).level < d then some j else nearestSmaller nodes j d

theorem nearestSmaller_lt (nodes : List OptionNode) (i d j : Nat)
    (h : nearestSmaller nodes i d = some j) : j < i := by
  induction i generalizing d with
  | zero => simp [nearestSmaller] at h
  | succ m ih =>
    simp only [nearestSmaller] at h
    split at h
    · cases h; omega
    · exact Nat.lt_trans (ih d h) (Nat.lt_succ_self m)

/-- Modelled from the spec words for the ancestor closure of one match: take
the nearest earlier node of strictly smaller depth, add it, and repeat the
walk from that ancestor until a depth-0 node is included. -/
def specAncestors (nodes : List OptionNode) (i : Nat) : List Nat :=
  match h : nearestSmaller nodes i (nodeAt nodes i).level with
  | none => []
  | some j =>
    if (nodeAt nodes j).level = 0 then [j]
    else j :: specAncestors nodes j
termination_by i
decreasing_by exact nearestSmaller_lt nodes i (nodeAt nodes i).level j h

theorem collectAncestors_zero (nodes : List OptionNode) (i : Nat) :
    collectAncestors nodes i 0 = [] := by
  induction i with
  | zero => rfl
  | succ m ih => simp [collectAncestors, ih]

theorem collectAncestors_nearest (nodes : List OptionNode) (i d : Nat) :
    collectAncestors nodes i d =
      match nearestSmaller nodes i d with
      | none => []
      | some j =>
        if (nodeAt nodes j).level = 0 then [j]
        else j :: collectAncestors nodes j (nodeAt nodes j).level := by
  induction i generalizing d with
  | zero => rfl
  | succ m ih =>
    simp only [collectAncestors, nearestSmaller]
    by_cases h : (nodeAt nodes m).level < d
    · simp [h]
    · simp [h, ih d]

/-- The backward walk of the code computes exactly the ancestor chain the
specification describes via repeated nearest-smaller-depth steps. -/
theorem specAncestors_eq_collect (nodes : List OptionNode) (i : Nat) :
    specAncestors nodes i = collectAncestors nodes i (nodeAt nodes i).level := by
  induction i using Nat.strong_induction_on with
  | _ i ih =>
    rw [specAncestors, collectAncestors_nearest]
    cases h : nearestSmaller nodes i (nodeAt nodes i).level with
    | none => rfl
    | some j =>
      by_cases hj : (nodeAt nodes j).level = 0
      · simp [hj]
      · simp [hj, ih j (nearestSmaller_lt nodes i _ j h)]

theorem collectAncestors_sub (nodes : List OptionNode) :
    ∀ i d j, j ∈ collectAncestors nodes i d →
      collectAncestors nodes j (nodeAt nodes j).level ⊆ collectAncestors nodes i d := by
  intro i
  induction i with
  | zero => intro d j hj; simp [collectAncestors] at hj
  | succ m ih =>
    intro d j hj
    simp only [collectAncestors] at hj ⊢
    by_cases h : (nodeAt nodes m).level < d
    · simp only [if_pos h] at hj ⊢
      by_cases h0 : (nodeAt nodes m).level = 0
      · simp only [if_pos h0] at hj ⊢
        simp only [List.mem_singleton] at hj
        subst hj
        rw [h0, collectAncestors_zero]
        intro x hx; simp at hx
      · simp only [if_neg h0] at hj ⊢
        rcases List.mem_cons.mp hj with rfl | htail
        · exact List.subset_cons_of_subset _ (List.Subset.refl _)
        · intro x hx
          exact List.mem_cons_of_mem _ (ih _ j htail hx)
    · simp only [if_neg h] at hj ⊢
      exact ih d j hj

/-- The grown set is already closed under the ancestor walk: processing an
ancestor that the JavaScript Set.forEach visits after it was added
contributes only indices that are already present. -/
theorem itemsToShow_closed (filter : String) (nodes : List OptionNode) :
    ∀ j ∈ itemsToShow filter nodes,
      ancestorsOf nodes j ⊆ itemsToShow filter nodes := by
  intro j hj
  simp only [itemsToShow, List.mem_append] at hj
  rcases hj with hms | hflat
  · intro x hx
    simp only [itemsToShow, List.mem_append, List.mem_flatMap]
    exact Or.inr ⟨j, hms, hx⟩
  · rcases List.mem_flatMap.mp hflat with ⟨m, hm, hjan⟩
    simp only [ancestorsOf] at hjan
    by_cases hm0 : (nodeAt nodes m).level = 0
    · simp [hm0] at hjan
    · simp only [if_neg hm0] at hjan
      intro x hx
      simp only [ancestorsOf] at hx
      by_cases hj0 : (nodeAt nodes j).level = 0
      · simp [hj0] at hx
      · simp only [if_neg hj0] at hx
        have hsub := collectAncestors_sub nodes m (nodeAt nodes m).level j hjan
        simp only [itemsToShow, List.mem_append, List.mem_flatMap]
        exact Or.inr ⟨m, hm, by
          simp only [ancestorsOf, if_neg hm0]
          exact hsub hx⟩

theorem strToUpper_eq_empty (s : String) : strToUpper s = "" ↔ s = "" := by
  cases s with
  | mk l =>
    constructor
    · intro h
      have hd : (strToUpper ⟨l⟩).data = ("" : String).data := by rw [h]
      simp only [strToUpper] at hd
      have : l.map Char.toUpper = [] := hd
      have : l = [] := List.map_eq_nil_iff.mp this
      simp [this]
    · intro h
      rw [h]
      rfl

theorem map_range_nodeAt (nodes : List OptionNode) :
    (List.range nodes.length).map (nodeAt nodes) = nodes := by
  apply List.ext_getElem
  · simp
  · intro i h1 h2
    simp only [List.getElem_map, List.getElem_range, nodeAt]
    exact List.getD_eq_getElem nodes _ h2

theorem strToUpper_empty : strToUpper "" = "" := rfl

/-- C1.  Filter Engine ancestor closure: for every query and every flattened,
depth-annotated node list, an index is left visible by the search filter iff
its display name contains the query as a case-insensitive substring, or it
lies on the ancestor chain (repeated nearest earlier strictly-smaller-depth
steps, down to a depth-0 node) of such a match of nonzero depth; an empty
query leaves every node visible, and the visible sublist keeps the original
order. -/
theorem c1_filter_ancestor_closure (q : String) (nodes : List OptionNode) :
    (q = "" → ∀ k, applyFilter q nodes k = true) ∧
    (q ≠ "" → ∀ k, (applyFilter q nodes k = true ↔
      ((k < nodes.length ∧ caseInsensitiveMatch q (nodeAt nodes k) = true) ∨
       ∃ m, m < nodes.length ∧ caseInsensitiveMatch q (nodeAt nodes m) = true ∧
         (nodeAt nodes m).level ≠ 0 ∧ k ∈ specAncestors nodes m))) ∧
    (visibleNodes q nodes).Sublist nodes := by
  refine ⟨?_, ?_, ?_⟩
  · intro hq k
    subst hq
    simp [applyFilter, strToUpper_empty]
  · intro hq k
    have hfil : strToUpper q ≠ "" := fun h => hq ((strToUpper_eq_empty q).mp h)
    simp only [applyFilter, if_neg hfil, decide_eq_true_eq, itemsToShow, List.mem_append,
      List.mem_flatMap, matchIndices, List.mem_filter, List.mem_range, ancestorsOf,
      caseInsensitiveMatch, nodeMatches]
    constructor
    · rintro (⟨hk, hmatch⟩ | ⟨m, ⟨hm, hmatch⟩, hk⟩)
      · exact Or.inl ⟨hk, hmatch⟩
      · by_cases h0 : (nodeAt nodes m).level = 0
        · simp [h0] at hk
        · refine Or.inr ⟨m, hm, hmatch, h0, ?_⟩
          rw [specAncestors_eq_collect]
          simpa [h0] using hk
    · rintro (⟨hk, hmatch⟩ | ⟨m, hm, hmatch, h0, hk⟩)
      · exact Or.inl ⟨hk, hmatch⟩
      · refine Or.inr ⟨m, ⟨hm, hmatch⟩, ?_⟩
        rw [specAncestors_eq_collect] at hk
        simp [h0, hk]
  · have hsub : (((List.range nodes.length).filter fun k =>
        applyFilter q nodes k).map (nodeAt nodes)).Sublist
          ((List.range nodes.length).map (nodeAt nodes)) :=
      (List.filter_sublist _).map (nodeAt nodes)
    rw [map_range_nodeAt] at hsub
    exact hsub

/-- Two-node demo list: a depth-0 root and a depth-1 child named Alpha. -/
def demoNodes : List OptionNode := [⟨"Root", 0⟩, ⟨"Alpha", 1⟩]

/-- Witness for C1: an empty query shows everything, and the query alp shows
the matched child together with its depth-0 ancestor. -/
theorem c1_filter_ancestor_closure_witness :
    applyFilter "" demoNodes 1 = true ∧ applyFilter "alp" demoNodes 0 = true :=
  ⟨(c1_filter_ancestor_closure "" demoNodes).1 rfl 1,
   ((c1_filter_ancestor_closure "alp" demoNodes).2.1 (by decide) 0).mpr
     (Or.inr ⟨1, by decide, by decide, by decide,
       by rw [specAncestors_eq_collect]; decide⟩)⟩

/-! ## Application state

The module-level mutable variables of app.js, together with an explicit model
of the two setInterval handles.  Interval identifiers are handed out by an
increasing counter; liveIntervals is the set of identifiers whose periodic
callback is still scheduled.  The phase field is an abstraction of where the
collection task lifecycle stands (the code keeps it implicitly in which
callbacks are pending). -/

/-- Lifecycle phase of the collection task. -/
inductive TaskPhase where
  | idle
  | submitting
  | polling
  | success
  | failure
  | transportError
deriving DecidableEq, Repr

/-- The application state: the let-bound mutable variables of app.js plus the
interval bookkeeping.  selectedDocType holds the raw option value strings of
populateDocTypes (new_host, full_infra, kubernetes) or none.
selectedInstances mirrors the object keyed by instance id with the display
name as value.  progressWidth is the percentage last written to
progressBar.style.width (showProgress writes 0, updateProgress writes the
computed percentage, the SUCCESS branch writes 100); the JavaScript string
comparison width !== 100-percent is modelled as a comparison with the exact
rational 100.  errorToasts counts error-type toast notifications emitted. -/
structure App where
  selectedRegion : Option String
  selectedDocType : Option String
  selectedCompartmentId : Option String
  selectedCompartmentName : Option String
  selectedInstances : List (String × String)
  progressTimerInterval : Option Nat
  pollingIntervalId : Option Nat
  liveIntervals : Finset Nat
  nextIntervalId : Nat
  progressWidth : ℚ
  overlayHidden : Bool
  detailsHidden : Bool
  errorToasts : Nat
  phase : TaskPhase
deriving DecidableEq

/-- window.setInterval: returns a fresh identifier and schedules it. -/
def setIntervalOp (s : App) : Nat × App :=
  (s.nextIntervalId,
   { s with liveIntervals := insert s.nextIntervalId s.liveIntervals,
            nextIntervalId := s.nextIntervalId + 1 })

/-- window.clearInterval: unschedules the given identifier; a null handle or
an already-cleared identifier is a no-op, as in the browser. -/
def clearIntervalOp (s : App) (i : Option Nat) : App :=
  match i with
  | none => s
  | some x => { s with liveIntervals := s.liveIntervals.erase x }

/-- hideProgress: clearInterval(progressTimerInterval);
clearInterval(pollingIntervalId); hide the overlay.  The stored handles are
not nulled by the code, only unscheduled. -/
def hideProgress (s : App) : App :=
  let s1 := clearIntervalOp s s.progressTimerInterval
  let s2 := clearIntervalOp s1 s1.pollingIntervalId
  { s2 with overlayHidden := true }

/-- The stored elapsed-time ticker handle is no longer scheduled. -/
def tickerStopped (s : App) : Bool :=
  match s.progressTimerInterval with
  | none => true
  | some i => decide (i ∉ s.liveIntervals)

/-- The stored status poller handle is no longer scheduled. -/
def pollerStopped (s : App) : Bool :=
  match s.pollingIntervalId with
  | none => true
  | some i => decide (i ∉ s.liveIntervals)

/-- JavaScript truthiness of a nullable string: null and the empty string are
falsy. -/
def optTruthy (o : Option String) : Bool :=
  match o with
  | none => false
  | some s => s ≠ ""

/-- The enabling condition updateFetchButtonState computes (the negation of
fetchBtn.disabled): with documentKind new_host the instance set must be
non-empty, otherwise selectedCompartmentId must be truthy. -/
def fetchEnabled (s : App) : Bool :=
  if s.selectedDocType = some "new_host" then s.selectedInstances.length ≠ 0
  else optTruthy s.selectedCompartmentId

/-- resetAndFetchCompartments, run when the region selection changes: nulls
selectedCompartmentId, empties selectedInstances, hides the details section,
empties the instance dropdown, and reloads the compartment level.
selectedCompartmentName is left untouched by the code. -/
def resetAndFetchCompartments (s : App) : App :=
  { s with selectedCompartmentId := none,
           selectedInstances := [],
           detailsHidden := true }

/-- resetAndFetchInstances, run when the compartment selection changes:
empties selectedInstances and hides the details section; the returned flag
records whether fetchInstances is called, which the code does only when
selectedDocType is new_host. -/
def resetAndFetchInstances (s : App) : App × Bool :=
  ({ s with selectedInstances := [], detailsHidden := true },
   s.selectedDocType == some "new_host")

/-- The region dropdown callback installed by fetchRegions: only when the
chosen value differs from the current selection does it store the new region
and cascade through resetAndFetchCompartments.  The returned flag records
whether the invalidation-and-reload path ran. -/
def regionSelectCallback (s : App) (v : String) : App × Bool :=
  if s.selectedRegion ≠ some v then
    (resetAndFetchCompartments { s with selectedRegion := some v }, true)
  else (s, false)

/-- The compartment dropdown callback installed by fetchCompartments: stores
the id and name unconditionally, then cascades through
resetAndFetchInstances; the flag again records whether the instance level is
reloaded. -/
def compartmentSelectCallback (s : App) (v name : String) : App × Bool :=
  resetAndFetchInstances
    { s with selectedCompartmentId := some v, selectedCompartmentName := some name }

/-- resetApp, the user-triggered session reset bound to the
new-document button: clears all selection and data state and reinitializes
the dropdowns.  It contains no clearInterval call, so the interval
bookkeeping is untouched. -/
def resetApp (s : App) : App :=
  { s with selectedRegion := none,
           selectedDocType := none,
           selectedCompartmentId := none,
           selectedCompartmentName := none,
           selectedInstances := [],
           detailsHidden := true,
           phase := TaskPhase.idle }

/-- The synchronous prefix of fetchAllDetails: clearInterval(pollingIntervalId),
hide the details section, showProgress (overlay shown, width reset to 0),
and start a fresh elapsed-time ticker whose handle overwrites
progressTimerInterval; the collection request is then submitted. -/
def fetchAllDetailsStart (s : App) : App :=
  let s1 := clearIntervalOp s s.pollingIntervalId
  let s2 := { s1 with detailsHidden := true, overlayHidden := false, progressWidth := 0 }
  let r := setIntervalOp s2
  { r.2 with progressTimerInterval := some r.1, phase := TaskPhase.submitting }

/-- Continuation of fetchAllDetails when the submission response is ok:
checkTaskStatus starts the status poller. -/
def submitAccepted (s : App) : App :=
  let r := setIntervalOp s
  { r.2 with pollingIntervalId := some r.1, phase := TaskPhase.polling }

/-- Continuation of fetchAllDetails when submission throws or the response is
not ok: an error toast and hideProgress. -/
def submitFailed (s : App) : App :=
  { hideProgress { s with errorToasts := s.errorToasts + 1 } with phase := TaskPhase.idle }

/-- Poll tick whose status response is not ok: stop polling, error toast,
hideProgress. -/
def tickNotOk (s : App) : App :=
  let s1 := clearIntervalOp s s.pollingIntervalId
  { hideProgress { s1 with errorToasts := s1.errorToasts + 1 } with
      phase := TaskPhase.transportError }

/-- Poll tick with status PROGRESS carrying a progress object: the displayed
percentage becomes current divided by total times 100 when total is positive
and the placeholder 5 otherwise (updateProgress). -/
def tickProgress (s : App) (current total : ℚ) : App :=
  let percentage := if 0 < total then current / total * 100 else 5
  { s with progressWidth := percentage, phase := TaskPhase.polling }

/-- Poll tick with status SUCCESS: stop polling, set the bar to 100, store
the result and schedule hideProgress after 1.2 seconds; the scheduled
hideProgress (which stops the still-running ticker) is folded into this
transition. -/
def tickSuccess (s : App) : App :=
  let s1 := clearIntervalOp s s.pollingIntervalId
  let s2 := { s1 with progressWidth := 100, detailsHidden := false,
                      phase := TaskPhase.success }
  hideProgress s2

/-- Poll tick with status FAILURE: stop polling, error toast, hideProgress. -/
def tickFailure (s : App) : App :=
  let s1 := clearIntervalOp s s.pollingIntervalId
  { hideProgress { s1 with errorToasts := s1.errorToasts + 1 } with
      phase := TaskPhase.failure }

/-- Poll tick whose fetch throws (transport error): when the displayed width
differs from 100 percent this is fatal (stop polling, error toast,
hideProgress), otherwise the error is swallowed and only the poll interval is
cleared. -/
def tickCatch (s : App) : App :=
  if s.progressWidth ≠ 100 then
    let s1 := clearIntervalOp s s.pollingIntervalId
    { hideProgress { s1 with errorToasts := s1.errorToasts + 1 } with
        phase := TaskPhase.transportError }
  else
    clearIntervalOp s s.pollingIntervalId

/-! ## Helper lemmas about the interval bookkeeping -/

theorem hideProgress_stops_both (s : App) :
    tickerStopped (hideProgress s) = true ∧ pollerStopped (hideProgress s) = true := by
  cases ht : s.progressTimerInterval <;> cases hp : s.pollingIntervalId <;>
    simp [hideProgress, clearIntervalOp, tickerStopped, pollerStopped, ht, hp,
      Finset.mem_erase]

/-- A concrete mid-collection state: a live ticker (id 0) and a live poller
(id 1), a selected region, compartment and name, displayed progress 40. -/
def exampleBusyState : App :=
  { selectedRegion := some "sa-saopaulo-1"
    selectedDocType := some "full_infra"
    selectedCompartmentId := some "ocid1.compartment.oc1..prod"
    selectedCompartmentName := some "Prod"
    selectedInstances := []
    progressTimerInterval := some 0
    pollingIntervalId := some 1
    liveIntervals := {0, 1}
    nextIntervalId := 2
    progressWidth := 40
    overlayHidden := false
    detailsHidden := true
    errorToasts := 0
    phase := TaskPhase.polling }

/-- The same mid-collection state after a progress tick reported 100. -/
def exampleWidth100State : App :=
  { exampleBusyState with progressWidth := 100 }

/-! ## C2: cascading invalidation -/

/-- C2 counterexample: changing the region away from a state whose
compartment name is Prod leaves selectedCompartmentName = some Prod, not
null as the claim demands. -/
theorem c2_cascading_counterexample :
    ((regionSelectCallback exampleBusyState "us-ashburn-1").1).selectedCompartmentName =
        some "Prod" ∧
    ((regionSelectCallback exampleBusyState "us-ashburn-1").1).selectedCompartmentName ≠
        none := by
  constructor <;> decide

/-- C2 (amended).  Changing the region nulls selectedCompartmentId and
empties selectedInstances but leaves selectedCompartmentName at its previous
value; changing the compartment empties selectedInstances, reloading the
instance level exactly when the document kind is new_host. -/
theorem c2_cascading_invalidation (s : App) (v : String) (hv : s.selectedRegion ≠ some v)
    (w name : String) :
    ((regionSelectCallback s v).1.selectedCompartmentId = none ∧
     (regionSelectCallback s v).1.selectedInstances = [] ∧
     (regionSelectCallback s v).1.selectedCompartmentName = s.selectedCompartmentName) ∧
    ((compartmentSelectCallback s w name).1.selectedInstances = [] ∧
     ((compartmentSelectCallback s w name).2 = true ↔
        s.selectedDocType = some "new_host")) := by
  refine ⟨?_, ?_, ?_⟩
  · simp [regionSelectCallback, hv, resetAndFetchCompartments]
  · simp [compartmentSelectCallback, resetAndFetchInstances]
  · simp [compartmentSelectCallback, resetAndFetchInstances]

/-- Witness for C2 (amended) at a concrete state and a genuinely new
region. -/
theorem c2_cascading_invalidation_witness :
    (regionSelectCallback exampleBusyState "us-ashburn-1").1.selectedCompartmentId = none :=
  (c2_cascading_invalidation exampleBusyState "us-ashburn-1" (by decide) "cmp" "Dev").1.1

/-! ## C3: joint cancellation -/

/-- C3 counterexample: resetApp invoked while both periodic processes run
stops neither of them, although the claim demands that an externally
triggered session reset stop both. -/
theorem c3_reset_counterexample :
    tickerStopped (resetApp exampleBusyState) = false ∧
    pollerStopped (resetApp exampleBusyState) = false := by
  constructor <;> decide

/-- C3 (amended).  Reaching Success, reaching Failure, a not-ok status
response and a fatal transport error each stop both the elapsed-time ticker
and the status poller; the user-triggered session reset contains no
cancellation at all: it leaves both stored interval handles and the set of
scheduled intervals unchanged, stopping neither process. -/
theorem c3_joint_cancellation (s : App) :
    (tickerStopped (tickSuccess s) = true ∧ pollerStopped (tickSuccess s) = true) ∧
    (tickerStopped (tickFailure s) = true ∧ pollerStopped (tickFailure s) = true) ∧
    (tickerStopped (tickNotOk s) = true ∧ pollerStopped (tickNotOk s) = true) ∧
    (s.progressWidth ≠ 100 →
      tickerStopped (tickCatch s) = true ∧ pollerStopped (tickCatch s) = true) ∧
    ((resetApp s).progressTimerInterval = s.progressTimerInterval ∧
     (resetApp s).pollingIntervalId = s.pollingIntervalId ∧
     (resetApp s).liveIntervals = s.liveIntervals) := by
  refine ⟨?_, ?_, ?_, ?_, ?_⟩
  · have h := hideProgress_stops_both
      { clearIntervalOp s s.pollingIntervalId with
          progressWidth := 100, detailsHidden := false, phase := TaskPhase.success }
    exact h
  · have h := hideProgress_stops_both
      { clearIntervalOp s s.pollingIntervalId with
          errorToasts := (clearIntervalOp s s.pollingIntervalId).errorToasts + 1 }
    simpa [tickFailure, tickerStopped, pollerStopped] using h
  · have h := hideProgress_stops_both
      { clearIntervalOp s s.pollingIntervalId with
          errorToasts := (clearIntervalOp s s.pollingIntervalId).errorToasts + 1 }
    simpa [tickNotOk, tickerStopped, pollerStopped] using h
  · intro hw
    have h := hideProgress_stops_both
      { clearIntervalOp s s.pollingIntervalId with
          errorToasts := (clearIntervalOp s s.pollingIntervalId).errorToasts + 1 }
    simpa [tickCatch, hw, tickerStopped, pollerStopped] using h
  · simp [resetApp]

/-- Witness for C3 (amended): the fatal-transport conjunct at the concrete
busy state with width 40. -/
theorem c3_joint_cancellation_witness :
    tickerStopped (tickCatch exampleBusyState) = true ∧
    pollerStopped (tickCatch exampleBusyState) = true :=
  (c3_joint_cancellation exampleBusyState).2.2.2.1 (by decide)

/-! ## C4: transport-error handling during polling -/

/-- C4.  A poll tick that throws a transport error is fatal when the
displayed percentage is not yet 100: both periodic processes stop, the phase
becomes transportError and exactly one network-error toast is emitted.  When
the displayed percentage is already 100 the error is swallowed: only the
poll interval is cleared, no toast is emitted, the phase is unchanged and a
distinct still-scheduled ticker stays scheduled. -/
theorem c4_transport_error_suppression (s : App) :
    (s.progressWidth ≠ 100 →
      tickerStopped (tickCatch s) = true ∧ pollerStopped (tickCatch s) = true ∧
      (tickCatch s).phase = TaskPhase.transportError ∧
      (tickCatch s).errorToasts = s.errorToasts + 1) ∧
    (s.progressWidth = 100 →
      pollerStopped (tickCatch s) = true ∧
      (tickCatch s).errorToasts = s.errorToasts ∧
      (tickCatch s).phase = s.phase ∧
      (tickCatch s).progressTimerInterval = s.progressTimerInterval ∧
      (∀ i, s.progressTimerInterval = some i → s.pollingIntervalId ≠ some i →
        i ∈ s.liveIntervals → i ∈ (tickCatch s).liveIntervals)) := by
  constructor
  · intro hw
    have h := hideProgress_stops_both
      { clearIntervalOp s s.pollingIntervalId with
          errorToasts := (clearIntervalOp s s.pollingIntervalId).errorToasts + 1 }
    refine ⟨?_, ?_, ?_, ?_⟩
    · simpa [tickCatch, hw, tickerStopped, pollerStopped] using h.1
    · simpa [tickCatch, hw, tickerStopped, pollerStopped] using h.2
    · simp [tickCatch, hw, hideProgress, clearIntervalOp]
    · cases ht : s.progressTimerInterval <;> cases hp : s.pollingIntervalId <;>
        simp [tickCatch, hw, hideProgress, clearIntervalOp, ht, hp]
  · intro hw
    refine ⟨?_, ?_, ?_, ?_, ?_⟩
    · cases hp : s.pollingIntervalId <;>
        simp [tickCatch, hw, pollerStopped, clearIntervalOp, hp, Finset.mem_erase]
    · cases hp : s.pollingIntervalId <;> simp [tickCatch, hw, clearIntervalOp, hp]
    · cases hp : s.pollingIntervalId <;> simp [tickCatch, hw, clearIntervalOp, hp]
    · cases hp : s.pollingIntervalId <;> simp [tickCatch, hw, clearIntervalOp, hp]
    · intro i hti hpi hlive
      cases hp : s.pollingIntervalId with
      | none => simpa [tickCatch, hw, clearIntervalOp, hp] using hlive
      | some p =>
        have hip : i ≠ p := by
          intro h
          exact hpi (by rw [hp, h])
        simp [tickCatch, hw, clearIntervalOp, hp, Finset.mem_erase, hip, hlive]

/-- Witness for C4 at both concrete branches: width 40 makes the transport
error fatal, width 100 swallows it. -/
theorem c4_transport_error_suppression_witness :
    ((tickCatch exampleBusyState).phase = TaskPhase.transportError ∧
     (tickCatch exampleBusyState).errorToasts = exampleBusyState.errorToasts + 1) ∧
    ((tickCatch exampleWidth100State).errorToasts = exampleWidth100State.errorToasts ∧
     0 ∈ (tickCatch exampleWidth100State).liveIntervals) :=
  ⟨⟨((c4_transport_error_suppression exampleBusyState).1 (by decide)).2.2.1,
    ((c4_transport_error_suppression exampleBusyState).1 (by decide)).2.2.2⟩,
   ⟨((c4_transport_error_suppression exampleWidth100State).2 (by decide)).2.1,
    ((c4_transport_error_suppression exampleWidth100State).2 (by decide)).2.2.2.2
      0 (by decide) (by decide) (by decide)⟩⟩

/-! ## C6: submission-ready predicate -/

/-- C6.  The fetch entry point is enabled iff the document kind is new_host
and at least one instance is selected, or the document kind is not new_host
and a compartment id is set (truthy); and the predicate reads only the
documentKind, instance-set and compartmentId components of the selection. -/
theorem c6_submission_ready (s : App) :
    (fetchEnabled s = true ↔
      (s.selectedDocType = some "new_host" ∧ s.selectedInstances ≠ []) ∨
      (s.selectedDocType ≠ some "new_host" ∧ optTruthy s.selectedCompartmentId = true)) ∧
    (∀ t : App, s.selectedDocType = t.selectedDocType →
      s.selectedInstances = t.selectedInstances →
      s.selectedCompartmentId = t.selectedCompartmentId →
      fetchEnabled s = fetchEnabled t) := by
  constructor
  · by_cases h : s.selectedDocType = some "new_host"
    · simp [fetchEnabled, h, List.length_eq_zero]
    · simp [fetchEnabled, h]
  · intro t h1 h2 h3
    simp [fetchEnabled, h1, h2, h3]

/-- Witness for C6: the busy state (full_infra with a compartment chosen) is
submission-ready, and the predicate agrees with itself across an otherwise
different state with the same three selection components. -/
theorem c6_submission_ready_witness :
    fetchEnabled exampleBusyState = true ∧
    fetchEnabled exampleBusyState = fetchEnabled exampleWidth100State :=
  ⟨(c6_submission_ready exampleBusyState).1.mpr (Or.inr ⟨by decide, by decide⟩),
   (c6_submission_ready exampleBusyState).2 exampleWidth100State rfl rfl rfl⟩

/-! ## C7: admission control for submissions -/

/-- C7 counterexample: invoking the submission entry point while a task is
live (phase polling, poller id 1 scheduled) is neither rejected nor a no-op:
the state changes and a new submission is started. -/
theorem c7_admission_counterexample :
    fetchAllDetailsStart exampleBusyState ≠ exampleBusyState ∧
    (fetchAllDetailsStart exampleBusyState).phase = TaskPhase.submitting := by
  constructor <;> decide

/-- C7 (amended).  The submission entry point performs no admission check:
called in any state it proceeds, superseding the previous task client-side —
the previous poll interval is cleared at entry, a fresh ticker is started
whose handle overwrites the stored one, and on acceptance a fresh poller is
started; consequently the client polls at most the newest task (the
superseded poller is no longer scheduled).  The freshness hypothesis states
that stored handles were handed out by the counter, an invariant of every
reachable state. -/
theorem c7_submission_supersedes (s : App)
    (hp : ∀ i, s.pollingIntervalId = some i → i < s.nextIntervalId) :
    (∀ i, s.pollingIntervalId = some i → i ∉ (fetchAllDetailsStart s).liveIntervals) ∧
    (fetchAllDetailsStart s).phase = TaskPhase.submitting ∧
    (fetchAllDetailsStart s).progressTimerInterval = some s.nextIntervalId ∧
    s.nextIntervalId ∈ (fetchAllDetailsStart s).liveIntervals ∧
    pollerStopped (submitAccepted (fetchAllDetailsStart s)) = false := by
  refine ⟨?_, ?_, ?_, ?_, ?_⟩
  · intro i hi
    have hlt := hp i hi
    cases hpoll : s.pollingIntervalId with
    | none => simp [hpoll] at hi
    | some p =>
      rw [hpoll] at hi
      cases hi
      simp [fetchAllDetailsStart, setIntervalOp, clearIntervalOp, hpoll,
        Finset.mem_insert, Finset.mem_erase]
      omega
  · cases hpoll : s.pollingIntervalId <;>
      simp [fetchAllDetailsStart, setIntervalOp, clearIntervalOp, hpoll]
  · cases hpoll : s.pollingIntervalId <;>
      simp [fetchAllDetailsStart, setIntervalOp, clearIntervalOp, hpoll]
  · cases hpoll : s.pollingIntervalId <;>
      simp [fetchAllDetailsStart, setIntervalOp, clearIntervalOp, hpoll]
  · cases hpoll : s.pollingIntervalId <;>
      simp [fetchAllDetailsStart, submitAccepted, setIntervalOp, clearIntervalOp,
        pollerStopped, hpoll]

/-- Witness for C7 (amended) at the concrete busy state. -/
theorem c7_submission_supersedes_witness :
    1 ∉ (fetchAllDetailsStart exampleBusyState).liveIntervals ∧
    (fetchAllDetailsStart exampleBusyState).phase = TaskPhase.submitting :=
  ⟨(c7_submission_supersedes exampleBusyState (by decide)).1 1 rfl,
   (c7_submission_supersedes exampleBusyState (by decide)).2.1⟩

/-! ## C9: progress percentage -/

/-- C9.  A PROGRESS tick displays current divided by total times 100 when
total is positive and the nonzero placeholder 5 otherwise; in particular
ticks reporting 1 of 4, 2 of 4 and 3 of 4 display 25, 50 and 75. -/
theorem c9_progress_percentage (s : App) (current total : ℚ) :
    (0 < total → (tickProgress s current total).progressWidth = current / total * 100) ∧
    (¬ 0 < total →
      (tickProgress s current total).progressWidth = 5 ∧
      (tickProgress s current total).progressWidth ≠ 0) ∧
    (tickProgress s 1 4).progressWidth = 25 ∧
    (tickProgress s 2 4).progressWidth = 50 ∧
    (tickProgress s 3 4).progressWidth = 75 := by
  refine ⟨?_, ?_, ?_, ?_, ?_⟩
  · intro h; simp [tickProgress, h]
  · intro h; simp [tickProgress, h]
  · norm_num [tickProgress]
  · norm_num [tickProgress]
  · norm_num [tickProgress]

/-- Witness for C9: the positive-total and nonpositive-total branches at
concrete ticks. -/
theorem c9_progress_percentage_witness :
    (tickProgress exampleBusyState 2 4).progressWidth = 2 / 4 * 100 ∧
    (tickProgress exampleBusyState 7 0).progressWidth = 5 :=
  ⟨(c9_progress_percentage exampleBusyState 2 4).1 (by norm_num),
   ((c9_progress_percentage exampleBusyState 7 0).2.1 (by norm_num)).1⟩

/-! ## C10: reselecting the current region is a no-op -/

/-- C10.  Invoking the region select callback with the value already
selected leaves the whole state unchanged and fires no invalidation or
reload. -/
theorem c10_region_reselect_noop (s : App) (v : String)
    (h : s.selectedRegion = some v) :
    regionSelectCallback s v = (s, false) := by
  simp [regionSelectCallback, h]

/-- Witness for C10 at the concrete busy state and its own region. -/
theorem c10_region_reselect_noop_witness :
    regionSelectCallback exampleBusyState "sa-saopaulo-1" = (exampleBusyState, false) :=
  c10_region_reselect_noop exampleBusyState "sa-saopaulo-1" rfl

/-! ## Infrastructure snapshot and summary rendering

The collections of allInfrastructureData that the summary and the export
gate read, with each element reduced to the fields the modelled code
touches. -/

/-- One compute instance of the snapshot. -/
structure InstanceData where
  host_name : String
  lifecycle_state : String
deriving DecidableEq, Repr, Inhabited

/-- One VCN of the snapshot. -/
structure Vcn where
  id : String
  display_name : String
  cidr_block : String
deriving DecidableEq, Repr, Inhabited

/-- One customer-premises equipment record. -/
structure Cpe where
  id : String
  display_name : String
  ip_address : String
deriving DecidableEq, Repr, Inhabited

/-- One dynamic routing gateway record. -/
structure Drg where
  id : String
  display_name : String
deriving DecidableEq, Repr, Inhabited

/-- One IPsec connection, referencing a CPE and a DRG by id. -/
structure IpsecConnection where
  display_name : String
  cpe_id : String
  drg_id : String
  status : String
deriving DecidableEq, Repr, Inhabited

/-- One Kubernetes cluster record. -/
structure KubernetesCluster where
  name : String
  vcn_id : String
deriving DecidableEq, Repr, Inhabited

/-- The aggregated snapshot held in allInfrastructureData after a successful
collection.  Load balancers and volume groups are kept as their rendered
display names; a missing collection of the JavaScript object is the empty
list (both are falsy at every length test the code performs). -/
structure InfraData where
  instances : List InstanceData
  vcns : List Vcn
  drgs : List Drg
  cpes : List Cpe
  ipsec_connections : List IpsecConnection
  load_balancers : List String
  volume_groups : List String
  kubernetes_clusters : List KubernetesCluster
deriving DecidableEq, Repr, Inhabited

/-- The hasData test of generateDocument: some of instances, Kubernetes
clusters or VCNs is non-empty.  The code computes the same disjunction for
every document kind. -/
def hasData (d : InfraData) : Bool :=
  (d.instances.length != 0) || (d.kubernetes_clusters.length != 0) ||
    (d.vcns.length != 0)

/-- JavaScript String.prototype.trim over the character data: whitespace is
removed from both ends. -/
def strTrim (s : String) : String :=
  ⟨((s.data.dropWhile Char.isWhitespace).reverse.dropWhile Char.isWhitespace).reverse⟩

/-- Whether generateDocument proceeds past its local validation: a blank
responsible name blocks first, then the hasData gate. -/
def generateDocumentProceeds (responsibleName : String) (d : InfraData) : Bool :=
  if strTrim responsibleName = "" then false
  else hasData d

/-- Modelled from the spec words for C5: the ready-to-export gate as the
specification states it, depending on the active document kind — instances
non-empty for new_host, any of instances, clusters or VCNs non-empty for the
other kinds.  Compared against the hasData gate the code actually computes. -/
def specReadyGate (docType : Option String) (d : InfraData) : Bool :=
  if docType = some "new_host" then d.instances.length != 0
  else (d.instances.length != 0) || (d.kubernetes_clusters.length != 0) ||
    (d.vcns.length != 0)

/-- Identity lookup of an IPsec connection CPE reference, translated from
cpes.find(c => c.id === ipsec.cpe_id)?.display_name || sentinel: a missing
match, and also a found record whose display name is empty (falsy), degrade
to the sentinel string. -/
def resolveCpeName (cpes : List Cpe) (cpeId : String) : String :=
  match cpes.find? (fun c => c.id == cpeId) with
  | some c => if c.display_name = "" then "Não encontrado" else c.display_name
  | none => "Não encontrado"

/-- Identity lookup of an IPsec connection DRG reference, translated from
drgs.find(d => d.id === ipsec.drg_id)?.display_name || sentinel. -/
def resolveDrgName (drgs : List Drg) (drgId : String) : String :=
  match drgs.find? (fun g => g.id == drgId) with
  | some g => if g.display_name = "" then "Não encontrado" else g.display_name
  | none => "Não encontrado"

/-- One rendered IPsec row of the summary. -/
structure IpsecEntry where
  display_name : String
  cpeName : String
  drgName : String
  status : String
deriving DecidableEq, Repr, Inhabited

/-- The data content of each section of the full-infrastructure summary.
generateInfrastructureSummary builds each section from its own collection
independently and joins the resulting markup; the markup strings are
abstracted here to the rendered contents, section by section. -/
structure SummaryModel where
  instancesSection : List String
  volumeGroupsSection : List String
  vcnSection : List String
  loadBalancersSection : List String
  drgSection : List String
  cpeSection : List String
  ipsecSection : List IpsecEntry
  okeSection : List String
deriving DecidableEq, Repr

/-- One rendered IPsec connection row: the display name and status of the
connection together with the CPE and DRG names resolved by identity
lookup. -/
def renderIpsecEntry (d : InfraData) (ip : IpsecConnection) : IpsecEntry :=
  { display_name := ip.display_name
    cpeName := resolveCpeName d.cpes ip.cpe_id
    drgName := resolveDrgName d.drgs ip.drg_id
    status := ip.status }

/-- The full-infrastructure summary of generateInfrastructureSummary: every
collection renders to its own section, and each IPsec connection row
carries the names resolved against the CPE and DRG collections by identity
lookup. -/
def generateInfrastructureSummaryModel (d : InfraData) : SummaryModel :=
  { instancesSection := d.instances.map (fun i => i.host_name)
    volumeGroupsSection := d.volume_groups
    vcnSection := d.vcns.map (fun v => v.display_name)
    loadBalancersSection := d.load_balancers
    drgSection := d.drgs.map (fun g => g.display_name)
    cpeSection := d.cpes.map (fun c => c.display_name)
    ipsecSection := d.ipsec_connections.map (renderIpsecEntry d)
    okeSection := d.kubernetes_clusters.map (fun c => c.name) }

/-! ## C5: ready-to-export gate -/

/-- A snapshot with no instances but one VCN. -/
def c5Data : InfraData :=
  { instances := []
    vcns := [⟨"ocid1.vcn.oc1..a", "vcn-prod", "10.0.0.0/16"⟩]
    drgs := []
    cpes := []
    ipsec_connections := []
    load_balancers := []
    volume_groups := []
    kubernetes_clusters := [] }

/-- C5 counterexample: with documentKind new_host, an empty instances list
and one VCN, the code permits export (hasData is true) although the claimed
kind-specific gate requires non-empty instances and is false. -/
theorem c5_gate_counterexample :
    generateDocumentProceeds "Ana" c5Data = true ∧
    specReadyGate (some "new_host") c5Data = false := by
  constructor <;> decide

/-- C5 (amended).  For every active document kind, export proceeds (with a
non-blank responsible name) iff any of instances, Kubernetes clusters or
VCNs is non-empty: the gate the code computes never reads the document
kind. -/
theorem c5_export_gate (docType : Option String) (name : String) (d : InfraData)
    (hn : strTrim name ≠ "") :
    generateDocumentProceeds name d = true ↔
      (d.instances ≠ [] ∨ d.kubernetes_clusters ≠ [] ∨ d.vcns ≠ []) := by
  simp [generateDocumentProceeds, hn, hasData, List.length_eq_zero, or_assoc]

/-- Witness for C5 (amended): the VCN-only snapshot passes the gate under
the kind new_host just as under full_infra. -/
theorem c5_export_gate_witness :
    generateDocumentProceeds "Ana" c5Data = true :=
  (c5_export_gate (some "new_host") "Ana" c5Data (by decide)).mpr
    (Or.inr (Or.inr (by decide)))

/-! ## C8: dangling-reference tolerance -/

theorem getD_map_of_lt {α β : Type} [Inhabited α] [Inhabited β] (f : α → β)
    (l : List α) (k : Nat) (hk : k < l.length) :
    (l.map f).getD k default = f (l.getD k default) := by
  rw [List.getD_eq_getElem _ _ (by simpa using hk), List.getD_eq_getElem _ _ hk,
    List.getElem_map]

/-- C8.  An IPsec connection whose cpe_id matches no CPE, or whose drg_id
matches no DRG, renders with the sentinel name for the dangling reference,
the identity lookup never fails, and every other part of the snapshot still
renders: the IPsec section keeps one row per connection with its own display
name, and all other sections keep one entry per collection element. -/
theorem c8_dangling_reference_tolerance (d : InfraData) (k : Nat)
    (hk : k < d.ipsec_connections.length) :
    (generateInfrastructureSummaryModel d).ipsecSection.length =
        d.ipsec_connections.length ∧
    ((∀ c ∈ d.cpes, c.id ≠ (d.ipsec_connections.getD k default).cpe_id) →
      ((generateInfrastructureSummaryModel d).ipsecSection.getD k default).cpeName =
        "Não encontrado") ∧
    ((∀ g ∈ d.drgs, g.id ≠ (d.ipsec_connections.getD k default).drg_id) →
      ((generateInfrastructureSummaryModel d).ipsecSection.getD k default).drgName =
        "Não encontrado") ∧
    ((generateInfrastructureSummaryModel d).ipsecSection.getD k default).display_name =
        (d.ipsec_connections.getD k default).display_name ∧
    (generateInfrastructureSummaryModel d).instancesSection.length =
        d.instances.length ∧
    (generateInfrastructureSummaryModel d).vcnSection.length = d.vcns.length ∧
    (generateInfrastructureSummaryModel d).cpeSection.length = d.cpes.length ∧
    (generateInfrastructureSummaryModel d).drgSection.length = d.drgs.length ∧
    (generateInfrastructureSummaryModel d).okeSection.length =
        d.kubernetes_clusters.length := by
  have hmap := getD_map_of_lt (renderIpsecEntry d) d.ipsec_connections k hk
  refine ⟨by simp [generateInfrastructureSummaryModel], ?_, ?_, ?_, by
    simp [generateInfrastructureSummaryModel], by
    simp [generateInfrastructureSummaryModel], by
    simp [generateInfrastructureSummaryModel], by
    simp [generateInfrastructureSummaryModel], by
    simp [generateInfrastructureSummaryModel]⟩
  · intro hdangling
    have hnone : d.cpes.find? (fun c =>
        c.id == (d.ipsec_connections.getD k default).cpe_id) = none := by
      rw [List.find?_eq_none]
      intro c hc
      simpa using hdangling c hc
    show ((d.ipsec_connections.map (renderIpsecEntry d)).getD k default).cpeName = _
    rw [hmap]
    simp only [renderIpsecEntry, resolveCpeName, hnone]
  · intro hdangling
    have hnone : d.drgs.find? (fun g =>
        g.id == (d.ipsec_connections.getD k default).drg_id) = none := by
      rw [List.find?_eq_none]
      intro g hg
      simpa using hdangling g hg
    show ((d.ipsec_connections.map (renderIpsecEntry d)).getD k default).drgName = _
    rw [hmap]
    simp only [renderIpsecEntry, resolveDrgName, hnone]
  · show ((d.ipsec_connections.map (renderIpsecEntry d)).getD k default).display_name = _
    rw [hmap]
    rfl

/-- A snapshot containing one instance, one DRG, one CPE and two IPsec
connections: the first references a CPE id matching nothing, the second a
DRG id matching nothing. -/
def c8Data : InfraData :=
  { instances := [⟨"srv-app-01", "RUNNING"⟩]
    vcns := []
    drgs := [⟨"ocid1.drg.oc1..d1", "drg-main"⟩]
    cpes := [⟨"ocid1.cpe.oc1..c1", "cpe-hq", "200.1.2.3"⟩]
    ipsec_connections :=
      [⟨"vpn-to-hq", "ocid1.cpe.oc1..missing", "ocid1.drg.oc1..d1", "UP"⟩,
       ⟨"vpn-to-dr", "ocid1.cpe.oc1..c1", "ocid1.drg.oc1..missing", "DOWN"⟩]
    load_balancers := []
    volume_groups := []
    kubernetes_clusters := [] }

/-- Witness for C8 at the concrete snapshot: the dangling CPE reference of
the first connection and the dangling DRG reference of the second both
resolve to the sentinel, and the instance section still renders. -/
theorem c8_dangling_reference_tolerance_witness :
    ((generateInfrastructureSummaryModel c8Data).ipsecSection.getD 0 default).cpeName =
        "Não encontrado" ∧
    ((generateInfrastructureSummaryModel c8Data).ipsecSection.getD 1 default).drgName =
        "Não encontrado" ∧
    (generateInfrastructureSummaryModel c8Data).instancesSection.length =
        c8Data.instances.length :=
  ⟨(c8_dangling_reference_tolerance c8Data 0 (by decide)).2.1 (by decide),
   (c8_dangling_reference_tolerance c8Data 1 (by decide)).2.2.1 (by decide),
   (c8_dangling_reference_tolerance c8Data 0 (by decide)).2.2.2.2.1⟩

end OciDocgen
